import Mathlib

/-
Verification of the SecondaryCoordinates QGIS status-bar plugin
(src/SecondaryCoordinates.py) against its design specification.

The development is a shallow embedding of the plugin's code:

* Python `int(...)` on strings and `str.startswith` are modelled
  character-by-character (`pyInt`, `startswith`).
* The JSON-like settings blob handled by `read_settings` and
  `_recursive_update` is modelled by the inductive type `JVal`; JSON
  objects are embedded association chains (`objNil` / `objCons`), so
  that Python's `d[k] = v` (replace-or-append, insertion order kept)
  and `dict.items()` iteration are mirrored exactly.
* The host application's opaque collaborators (CRS registry, native
  transform engine, osr geodesy engine, number formatting) are the
  fields of a `QgisEnv` record; the plugin's own code never inspects
  them beyond calling them, so theorems quantify over the environment.
* Exceptions are modelled with `Except`/`Option`: `QgsCsException`
  carried by the transform calls as `Except String`, and the other
  Python exception kinds by `PyErr`.
* Coordinates are rationals; the formatting of a coordinate is the
  opaque `QgisEnv.pyFormat` capability (Python f-string formatting,
  `none` modelling a raised `ValueError`).

Widget / dialog state is explicit: each Python method that mutates
`self` becomes a function from state to state (or to `Except PyErr`
state when the method can raise).
-/

/-! ## Python string helpers: `str.startswith` and `int(...)` -/

/-- Python `str.startswith`, on explicit character lists. -/
def startsWithChars : List Char → List Char → Bool
  | _, [] => true
  | [], _ :: _ => false
  | c :: cs, p :: ps => if c = p then startsWithChars cs ps else false

/-- Python `s.startswith(pre)`. -/
def startswith (s pre : String) : Bool :=
  startsWithChars s.data pre.data

/-- Whitespace stripped by Python `int(...)` before parsing. -/
def isPySpace (c : Char) : Bool :=
  c = ' ' || c = '\t' || c = '\n' || c = '\r' || c = '\x0b' || c = '\x0c'

/-- Strip leading and trailing whitespace from a character list. -/
def trimChars (cs : List Char) : List Char :=
  ((cs.dropWhile isPySpace).reverse.dropWhile isPySpace).reverse

/-- Accumulating decimal parser: fails on the first non-digit. -/
def digitsToNatAux : Nat → List Char → Option Nat
  | acc, [] => some acc
  | acc, c :: cs =>
    if c.isDigit then digitsToNatAux (10 * acc + (c.toNat - 48)) cs else none

/-- Parse a non-empty all-digit character list as a natural number. -/
def digitsToNat : List Char → Option Nat
  | [] => none
  | cs => digitsToNatAux 0 cs

/-- Sign handling of Python `int(...)` after whitespace stripping. -/
def pyIntChars : List Char → Option Int
  | [] => none
  | c :: cs =>
    if c = '+' then (digitsToNat cs).map Int.ofNat
    else if c = '-' then (digitsToNat cs).map (fun n => -(n : Int))
    else (digitsToNat (c :: cs)).map Int.ofNat

/-- Python `int(s)` for a string `s`: `some n` on success, `none` when
Python would raise `ValueError`. -/
def pyInt (s : String) : Option Int :=
  pyIntChars (trimChars s.data)

/-! ## JSON-like values (the persisted settings blob)

`read_settings` feeds the stored text through `json.loads` and merges
the resulting nested `dict` onto the defaults with `_recursive_update`.
JSON objects are embedded association chains: `objCons k v rest` is a
`dict` whose first insertion-ordered item is `(k, v)`.  The plugin's
settings only ever hold strings and lists of strings as leaves. -/

inductive JVal where
  | str : String → JVal
  | arr : List String → JVal
  | objNil : JVal
  | objCons : String → JVal → JVal → JVal
deriving DecidableEq

/-- Python `isinstance(v, dict)`. -/
def JVal.isObj : JVal → Bool
  | .objNil => true
  | .objCons _ _ _ => true
  | _ => false

/-- Python `d[k]` / `k in d` on an object chain (first match; `none`
both for a missing key and for a non-dict value). -/
def JVal.alookup : JVal → String → Option JVal
  | .objCons k0 v0 rest, k => if k0 = k then some v0 else alookup rest k
  | _, _ => none

/-- Python `d[k] = v`: replace the value in place if the key is
present, otherwise append the new item at the end. -/
def JVal.setKey : JVal → String → JVal → JVal
  | .objCons k0 v0 rest, k, v =>
    if k0 = k then .objCons k0 v rest else .objCons k0 v0 (setKey rest k v)
  | _, k, v => .objCons k v .objNil

/-- The keys of an object chain, in insertion order. -/
def JVal.keysList : JVal → List String
  | .objCons k _ rest => k :: keysList rest
  | _ => []

/-- Build an object chain from an explicit item list. -/
def JVal.objOf : List (String × JVal) → JVal
  | [] => .objNil
  | (k, v) :: rest => .objCons k v (objOf rest)

/-- Keys are pairwise distinct at every nesting level (always true of a
value produced by `json.loads`, since Python dict keys are unique). -/
def JVal.objNodup : JVal → Bool
  | .objCons k v rest => !(decide (k ∈ keysList rest)) && objNodup v && objNodup rest
  | _ => true

/-- Shape compatibility of a stored blob `d2` with the defaults `d1`:
wherever `d1` holds a nested dict under a key that `d2` also binds,
`d2` binds a dict there too (recursively).  This is the sense in which
a stored settings blob is well-formed: it never replaces a whole
defaults sub-dict by a scalar. -/
def JVal.compat : JVal → JVal → Bool
  | d1, .objCons k v rest =>
    (match d1.alookup k with
     | some w => if w.isObj then v.isObj && JVal.compat w v else true
     | none => true)
    && JVal.compat d1 rest
  | _, _ => true

/-- `SecondaryCoordinates._recursive_update(d1, d2)`: iterate over the
items of `d2`; recurse when both sides hold a dict under the key,
otherwise overwrite `d1[k]` with `d2`'s value. -/
def recursive_update : JVal → JVal → JVal
  | d1, .objCons k v rest =>
    recursive_update
      (match d1.alookup k with
       | some w =>
         if v.isObj && w.isObj then d1.setKey k (recursive_update w v)
         else d1.setKey k v
       | none => d1.setKey k v)
      rest
  | d1, _ => d1

/-- Follow a path of nested keys through object chains. -/
def JVal.lookupPath : JVal → List String → Option JVal
  | v, [] => some v
  | v, k :: ps =>
    match v.alookup k with
    | some w => lookupPath w ps
    | none => none

/-- The Python exception kinds the plugin's own code can raise. -/
inductive PyErr where
  | keyError
  | valueError
  | jsonDecodeError
  | attributeError
  | zeroDivisionError
deriving DecidableEq

/-- The hard-coded `default_settings` dict of `SecondaryCoordinates.__init__`,
as the JSON-like value handled by `read_settings`. -/
def default_settings_json : JVal :=
  JVal.objOf
    [("transforms", JVal.objOf
        [("EPSG:6414", JVal.objOf
            [("x_format", .str ",.0f"),
             ("y_format", .str ",.0f"),
             ("transform_name", .str "EPSG:6414"),
             ("scaler", .str "1")]),
         ("+proj=calcofi +ellps=clrk66", JVal.objOf
            [("x_format", .str ",.1f"),
             ("y_format", .str ",.1f"),
             ("transform_name", .str "Line, Station"),
             ("scaler", .str "1")])]),
     ("last_transform", .str "EPSG:6414"),
     ("x_formats", .arr [".1f", ",.0f"]),
     ("y_formats", .arr [".1f", ",.0f"]),
     ("scalers", .arr ["1", "1000", "1852"])]

/-- `SecondaryCoordinates.read_settings`.  `stored` is the text under
the scoped settings key (`""` when absent, the default of
`settings.value`); `parse` is `json.loads`, returning `none` where the
real parser raises `json.JSONDecodeError`.  The source has no handler
around `json.loads`: a malformed non-empty blob propagates the parse
error, and a parsed non-dict blob makes `_recursive_update` call
`d2.items()` on a non-dict, an `AttributeError`. -/
def read_settings (parse : String → Option JVal) (stored : String) :
    Except PyErr JVal :=
  if stored = "" then .ok default_settings_json
  else
    match parse stored with
    | none => .error .jsonDecodeError
    | some j =>
      if j.isObj then .ok (recursive_update default_settings_json j)
      else .error .attributeError

/-! ## The host environment and the transform resolver

`Crs` is the type of the host's coordinate reference systems
(`QgsCoordinateReferenceSystem` values), `OsrT` the type of osr
`CoordinateTransformation` objects.  The plugin treats both as opaque;
`QgisEnv` packages every call it makes into the host / the libraries. -/

/-- A `QgsPointXY`. -/
structure Point where
  x : ℚ
  y : ℚ
deriving DecidableEq

/-- The external collaborators of the plugin, as opaque capabilities. -/
structure QgisEnv (Crs OsrT : Type) where
  /-- `QgsProject.instance().crs()` (can be `None` before a project is open). -/
  projectCrs : Option Crs
  /-- `QgsCoordinateReferenceSystem("EPSG:4326")`, the fallback source CRS. -/
  crs4326 : Crs
  /-- `QgsCoordinateReferenceSystem(n)` for an integer EPSG code `n`;
  `none` when the resulting CRS is not `isValid()`. -/
  crsOfInt : Int → Option Crs
  /-- `QgsCoordinateReferenceSystem(s)` for a textual code or WKT string;
  `none` when the resulting CRS is not `isValid()`. -/
  crsOfStr : String → Option Crs
  /-- Build the osr `CoordinateTransformation` from the WKT of a source
  CRS into the fixed `"+proj=calcofi +ellps=clrk66"` projection. -/
  osrOf : Crs → OsrT
  /-- `osr` `TransformPoint` on two coordinates: a triple on success,
  `.error` where the geodesy engine raises `RuntimeError`. -/
  transformPoint : OsrT → ℚ → ℚ → Except String (ℚ × ℚ × ℚ)
  /-- `QgsCoordinateTransform(src, dst, project).transform(p)`:
  `.error` models a raised `QgsCsException`. -/
  nativeTransform : Option Crs → Crs → Point → Except String (ℚ × ℚ)
  /-- Python format of a number with a pattern (the f-string
  interpolation); `none` where Python raises `ValueError`. -/
  pyFormat : String → ℚ → Option String

/-- The state of a `CalcofiTransformer`: its source CRS and the osr
transformation built from it. -/
structure CalcofiTransformer (Crs OsrT : Type) where
  src_crs : Crs
  crs : OsrT
deriving DecidableEq

/-- `CalcofiTransformer.setSourceCrs`.  The method recomputes both
fields from scratch: resolve the argument (default: the project CRS,
then EPSG:4326 when that is unset) and rebuild the osr transformation. -/
def CalcofiTransformer.setSourceCrs {Crs OsrT : Type} (env : QgisEnv Crs OsrT)
    (_t : CalcofiTransformer Crs OsrT) (src_crs : Option Crs) :
    CalcofiTransformer Crs OsrT :=
  let s : Crs :=
    match src_crs with
    | some c => c
    | none =>
      match env.projectCrs with
      | some c => c
      | none => env.crs4326
  { src_crs := s, crs := env.osrOf s }

/-- `CalcofiTransformer.sourceCrs`. -/
def CalcofiTransformer.sourceCrs {Crs OsrT : Type}
    (t : CalcofiTransformer Crs OsrT) : Crs :=
  t.src_crs

/-- `CalcofiTransformer.__init__`: fields start unset, then
`setSourceCrs()` is called with no argument. -/
def CalcofiTransformer.construct {Crs OsrT : Type} (env : QgisEnv Crs OsrT) :
    CalcofiTransformer Crs OsrT :=
  CalcofiTransformer.setSourceCrs env ⟨env.crs4326, env.osrOf env.crs4326⟩ none

/-- `CalcofiTransformer.transform(xy)`: call the osr engine with
`(xy.y(), xy.x())` — latitude first — keep the first two output
components, and re-raise an engine `RuntimeError` as `QgsCsException`
(the `.error` channel shared with the native transform path). -/
def CalcofiTransformer.transform {Crs OsrT : Type} (env : QgisEnv Crs OsrT)
    (t : CalcofiTransformer Crs OsrT) (xy : Point) : Except String (ℚ × ℚ) :=
  match env.transformPoint t.crs xy.y xy.x with
  | .error e => .error e
  | .ok (line, sta, _) => .ok (line, sta)

/-- The polymorphic transform object held by the widget: either a
`QgsCoordinateTransform` (determined by its source and target CRS) or a
`CalcofiTransformer`. -/
inductive TransformObj (Crs OsrT : Type) where
  | native (src : Option Crs) (target : Crs)
  | calcofi (t : CalcofiTransformer Crs OsrT)
deriving DecidableEq

/-- `sourceCrs()` of either transform object. -/
def TransformObj.sourceCrs {Crs OsrT : Type} :
    TransformObj Crs OsrT → Option Crs
  | .native src _ => src
  | .calcofi t => some t.src_crs

/-- `setSourceCrs(...)` of either transform object. -/
def TransformObj.setSourceCrs {Crs OsrT : Type} (env : QgisEnv Crs OsrT) :
    TransformObj Crs OsrT → Option Crs → TransformObj Crs OsrT
  | .native _ tgt, arg => .native arg tgt
  | .calcofi t, arg => .calcofi (t.setSourceCrs env arg)

/-- `transform(xy)` of either transform object; `.error` is a raised
`QgsCsException`. -/
def TransformObj.transform {Crs OsrT : Type} (env : QgisEnv Crs OsrT) :
    TransformObj Crs OsrT → Point → Except String (ℚ × ℚ)
  | .native src tgt, p => env.nativeTransform src tgt p
  | .calcofi t, p => t.transform env p

/-- The argument of `get_transform`: an EPSG code as a Python `int`, or
a string (a textual code, a WKT string, or the calcofi marker). -/
inductive CrsInput where
  | int (n : Int)
  | str (s : String)

/-- The `src_crs` computed at the top of `get_transform`: the project
CRS, defaulting to EPSG:4326 before a project is open. -/
def projectSourceCrs {Crs OsrT : Type} (env : QgisEnv Crs OsrT) : Crs :=
  match env.projectCrs with
  | some c => c
  | none => env.crs4326

/-- `get_transform(crs)` of the source: resolve a user-supplied
identifier to `(canonical identifier, transform object)`, or `none`
when it is invalid.

* a string starting with `"+proj=calcofi"` short-circuits to the fixed
  marker identifier and a fresh `CalcofiTransformer`;
* otherwise `int(crs)` is attempted (a no-op for an `int` input, a
  parse for a string input, failure keeping the string);
* the (possibly converted) code is given to
  `QgsCoordinateReferenceSystem`; if valid, an integer code is
  canonicalized to `"EPSG:" + str(code)` and a native transform from
  the project CRS (EPSG:4326 when unset) is built. -/
def get_transform {Crs OsrT : Type} (env : QgisEnv Crs OsrT)
    (crs : CrsInput) : Option (String × TransformObj Crs OsrT) :=
  let src_crs : Crs := projectSourceCrs env
  match crs with
  | .str s =>
    if startswith s "+proj=calcofi" then
      some ("+proj=calcofi +ellps=clrk66",
            .calcofi (CalcofiTransformer.construct env))
    else
      match pyInt s with
      | some n =>
        match env.crsOfInt n with
        | some q => some ("EPSG:" ++ toString n, .native (some src_crs) q)
        | none => none
      | none =>
        match env.crsOfStr s with
        | some q => some (s, .native (some src_crs) q)
        | none => none
  | .int n =>
    match env.crsOfInt n with
    | some q => some ("EPSG:" ++ toString n, .native (some src_crs) q)
    | none => none

/-! ## The typed Settings structure

The dialog and the widget manipulate the settings dict through a fixed
set of keys; this typed view mirrors that shape.  `transforms` is an
association list (Python dict: unique keys, insertion order). -/

/-- Generic Python-dict lookup on an association list. -/
def lookupKey {α : Type} : List (String × α) → String → Option α
  | [], _ => none
  | (k0, v0) :: rest, k => if k0 = k then some v0 else lookupKey rest k

/-- Generic Python-dict store (`d[k] = v`): replace in place or append. -/
def storeKey {α : Type} : List (String × α) → String → α → List (String × α)
  | [], k, v => [(k, v)]
  | (k0, v0) :: rest, k, v =>
    if k0 = k then (k0, v) :: rest else (k0, v0) :: storeKey rest k v

/-- The per-transform configuration dict
`{"transform_name": ..., "x_format": ..., "y_format": ..., "scaler": ...}`. -/
structure TransformCfg where
  transform_name : String
  x_format : String
  y_format : String
  scaler : String
deriving DecidableEq

/-- The settings dict. -/
structure Settings where
  transforms : List (String × TransformCfg)
  last_transform : String
  x_formats : List String
  y_formats : List String
  scalers : List String
deriving DecidableEq

/-- The hard-coded `default_settings` of `SecondaryCoordinates.__init__`
(typed view of `default_settings_json`). -/
def default_settings : Settings :=
  { transforms :=
      [("EPSG:6414",
        { transform_name := "EPSG:6414", x_format := ",.0f",
          y_format := ",.0f", scaler := "1" }),
       ("+proj=calcofi +ellps=clrk66",
        { transform_name := "Line, Station", x_format := ",.1f",
          y_format := ",.1f", scaler := "1" })],
    last_transform := "EPSG:6414",
    x_formats := [".1f", ",.0f"],
    y_formats := [".1f", ",.0f"],
    scalers := ["1", "1000", "1852"] }

/-! ## The display widget -/

/-- The mutable state of the `SecondaryCoordinates` widget: its settings
dict, the derived active configuration (`_transform`, `_crs`,
`_x_format` / `_y_format` — the formatter closures read these fields at
call time — `_scaler`, the label text), the read-only text field, and
the cached last point `xy`. -/
structure SecondaryCoordinates (Crs OsrT : Type) where
  settings : Settings
  transform : String
  crs : TransformObj Crs OsrT
  x_format : String
  y_format : String
  scaler : Int
  labelText : String
  editText : String
  xy : Option Point
deriving DecidableEq

/-- `SecondaryCoordinates.update_src_crs`: re-read the project CRS and
propagate it into the active transform object when it differs. -/
def SecondaryCoordinates.update_src_crs {Crs OsrT : Type} [DecidableEq Crs]
    (env : QgisEnv Crs OsrT) (t : TransformObj Crs OsrT) :
    TransformObj Crs OsrT :=
  if t.sourceCrs = env.projectCrs then t
  else t.setSourceCrs env env.projectCrs

/-- `SecondaryCoordinates.read_coords(xy)`: cache the point, re-sync the
source CRS, transform (clearing the display and stopping on
`QgsCsException`), then scale both components by `/ self.scaler` and
format them.  A zero scaler would raise `ZeroDivisionError`, a format
pattern invalid for the actual value a `ValueError`; neither is caught
in the source. -/
def SecondaryCoordinates.read_coords {Crs OsrT : Type} [DecidableEq Crs]
    (env : QgisEnv Crs OsrT) (w : SecondaryCoordinates Crs OsrT)
    (xy : Point) : Except PyErr (SecondaryCoordinates Crs OsrT) :=
  let w1 := { w with xy := some xy }
  let w2 := { w1 with crs := SecondaryCoordinates.update_src_crs env w1.crs }
  match w2.crs.transform env xy with
  | .error _ => .ok { w2 with editText := "" }
  | .ok (x, y) =>
    if w2.scaler = 0 then .error .zeroDivisionError
    else
      match env.pyFormat w2.x_format (x / (w2.scaler : ℚ)),
            env.pyFormat w2.y_format (y / (w2.scaler : ℚ)) with
      | some sx, some sy => .ok { w2 with editText := sx ++ ", " ++ sy }
      | _, _ => .error .valueError

/-- `SecondaryCoordinates.update_from_settings(settings)`: set the
`transform` property (which re-resolves via `get_transform` and raises
`ValueError` on an invalid identifier), then read
`settings["transforms"][trans]` — a `KeyError` when `last_transform` is
not a key — derive label, formats and scaler (`int(...)` may raise
`ValueError`), adopt the settings, persist them, and clear the display. -/
def SecondaryCoordinates.update_from_settings {Crs OsrT : Type}
    (env : QgisEnv Crs OsrT) (w : SecondaryCoordinates Crs OsrT)
    (settings : Settings) : Except PyErr (SecondaryCoordinates Crs OsrT) :=
  let trans := settings.last_transform
  match get_transform env (.str trans) with
  | none => .error .valueError
  | some (cid, tobj) =>
    match lookupKey settings.transforms trans with
    | none => .error .keyError
    | some cfg =>
      match pyInt cfg.scaler with
      | none => .error .valueError
      | some sc =>
        .ok { w with
              transform := cid, crs := tobj,
              labelText := cfg.transform_name,
              x_format := cfg.x_format, y_format := cfg.y_format,
              scaler := sc, settings := settings, editText := "" }

/-! ## The configuration dialog

`ConfigDialog.__init__` stores `self.settings = parent.settings`: the
dialog holds the very same settings object as the widget (the class
docstring says it copies — it does not).  The embedding therefore
threads one `Settings` value through the dialog session; whatever the
session state holds in `settings` is what the widget's `self.settings`
refers to, accepted or cancelled. -/

/-- The dialog state: the (aliased) settings object plus the current
texts and suggestion-item lists of the editable fields.  Each combo box
has `setMaxCount(10)`, so its item list holds at most the first 10
entries given to `addItems`. -/
structure ConfigDialog where
  settings : Settings
  transformItems : List String
  transformText : String
  nameText : String
  xItems : List String
  xText : String
  yItems : List String
  yText : String
  scalerItems : List String
  scalerText : String
deriving DecidableEq

/-- `ConfigDialog.update_gui`: when `last_transform` is a known key,
refresh the field texts from its stored configuration (the typed
`TransformCfg` always carries all four entries); then fill guesses into
still-empty fields, and replace an empty or `"EPSG"`-prefixed label by
the identifier itself. -/
def ConfigDialog.update_gui (d : ConfigDialog) : ConfigDialog :=
  let trans := d.settings.last_transform
  let d1 :=
    match lookupKey d.settings.transforms trans with
    | some cfg =>
      { d with transformText := trans, nameText := cfg.transform_name,
               xText := cfg.x_format, yText := cfg.y_format,
               scalerText := cfg.scaler }
    | none => d
  let d2 :=
    if d1.nameText = "" || startswith d1.nameText "EPSG" then
      { d1 with nameText := trans }
    else d1
  let d3 := if d2.xText = "" then { d2 with xText := ",.0f" } else d2
  let d4 := if d3.yText = "" then { d3 with yText := ",.0f" } else d3
  if d4.scalerText = "" then { d4 with scalerText := "1" } else d4

/-- `ConfigDialog.on_transform_change`: on an empty text do nothing; on
an invalid identifier show an error and revert the field to
`settings["last_transform"]`; on success canonicalize the displayed
identifier, write it into `settings["last_transform"]` — a mutation of
the shared settings object — and refresh the other fields. -/
def ConfigDialog.on_transform_change {Crs OsrT : Type}
    (env : QgisEnv Crs OsrT) (d : ConfigDialog) : ConfigDialog :=
  let txt := d.transformText
  if txt = "" then d
  else
    match get_transform env (.str txt) with
    | none => { d with transformText := d.settings.last_transform }
    | some (cid, _) =>
      ConfigDialog.update_gui
        { d with transformText := cid,
                 settings := { d.settings with last_transform := cid } }

/-- `ConfigDialog.get_combo_items(combo)`:
`list(set([combo.currentText()] + [combo.itemText(i) ...]))` — the set
of the current line-edit text together with the items.  The embedding
returns the duplicate-free list of those elements (Python's `set`
iteration order is unspecified). -/
def ConfigDialog.get_combo_items (current : String) (items : List String) :
    List String :=
  (current :: items).dedup

/-- `ConfigDialog.update_settings`: write the edited fields into the
settings under the current identifier text (creating or fully updating
its four-entry configuration), set `last_transform`, and replace the
three recency lists by the union of the current field text with the
item list of its combo box. -/
def ConfigDialog.update_settings (d : ConfigDialog) : ConfigDialog :=
  let trans := d.transformText
  let setting : TransformCfg :=
    { transform_name := d.nameText, x_format := d.xText,
      y_format := d.yText, scaler := d.scalerText }
  let s := d.settings
  let s :=
    { s with transforms := storeKey s.transforms trans setting,
             last_transform := trans,
             x_formats := ConfigDialog.get_combo_items d.xText d.xItems,
             y_formats := ConfigDialog.get_combo_items d.yText d.yItems,
             scalers := ConfigDialog.get_combo_items d.scalerText d.scalerItems }
  { d with settings := s }

/-- `ConfigDialog.accept`: re-validate the transform identifier, both
format patterns against the sample value `1.2`, and the scaler text as
an integer; any failure shows a message and keeps the dialog open
(`none`); otherwise run `update_settings` and close accepting. -/
def ConfigDialog.accept {Crs OsrT : Type} (env : QgisEnv Crs OsrT)
    (d : ConfigDialog) : Option ConfigDialog :=
  if (get_transform env (.str d.transformText)).isNone then none
  else if (env.pyFormat d.xText (6 / 5 : ℚ)).isNone then none
  else if (env.pyFormat d.yText (6 / 5 : ℚ)).isNone then none
  else if (pyInt d.scalerText).isNone then none
  else some (ConfigDialog.update_settings d)

/-- `ConfigDialog.__init__` on the parent's settings: alias the parent's
settings object, seed each combo box from it (`addItems` puts the first
item into the line edit; `setMaxCount(10)` keeps at most 10 items), set
the transform text to `last_transform`, and run `update_gui`.  The
signal connections happen after all of this, so no change handler fires
during construction. -/
def ConfigDialog.construct (parentSettings : Settings) : ConfigDialog :=
  ConfigDialog.update_gui
    { settings := parentSettings,
      transformItems := (parentSettings.transforms.map Prod.fst).take 10,
      transformText := parentSettings.last_transform,
      nameText := "",
      xItems := parentSettings.x_formats.take 10,
      xText := (parentSettings.x_formats.take 10).headD "",
      yItems := parentSettings.y_formats.take 10,
      yText := (parentSettings.y_formats.take 10).headD "",
      scalerItems := parentSettings.scalers.take 10,
      scalerText := (parentSettings.scalers.take 10).headD "" }

/-- A user interaction inside an open dialog: typing into a field, or
the transform combo firing `editingFinished` / `currentIndexChanged`
(both connected to `on_transform_change`).  `reset_to_defaults` rebinds
the dialog's settings reference to a fresh copy and is not needed here. -/
inductive DialogEdit where
  | setTransformText (s : String)
  | transformEdited
  | setNameText (s : String)
  | setXText (s : String)
  | setYText (s : String)
  | setScalerText (s : String)

/-- Apply one interaction to the dialog state. -/
def ConfigDialog.applyEdit {Crs OsrT : Type} (env : QgisEnv Crs OsrT)
    (d : ConfigDialog) : DialogEdit → ConfigDialog
  | .setTransformText s => { d with transformText := s }
  | .transformEdited => ConfigDialog.on_transform_change env d
  | .setNameText s => { d with nameText := s }
  | .setXText s => { d with xText := s }
  | .setYText s => { d with yText := s }
  | .setScalerText s => { d with scalerText := s }

/-- Apply a sequence of interactions. -/
def ConfigDialog.applyEdits {Crs OsrT : Type} (env : QgisEnv Crs OsrT)
    (d : ConfigDialog) (edits : List DialogEdit) : ConfigDialog :=
  edits.foldl (ConfigDialog.applyEdit env) d

/-- `SecondaryCoordinates.on_config_dialog`, cancel path: open the
dialog on the widget's settings, let the user edit, reject.  The widget
then does nothing — but its `self.settings` is the object the dialog
has been mutating, so the widget's settings after the session are the
dialog's. -/
def settings_after_cancel {Crs OsrT : Type} (env : QgisEnv Crs OsrT)
    (parentSettings : Settings) (edits : List DialogEdit) : Settings :=
  (ConfigDialog.applyEdits env (ConfigDialog.construct parentSettings)
    edits).settings

/-- The value `recursive_update` leaves under a key that the stored
blob binds to `v`, given what the defaults bound there. -/
def mergedValue (d1v : Option JVal) (v : JVal) : JVal :=
  match d1v with
  | some w => if v.isObj && w.isObj then recursive_update w v else v
  | none => v

/-! ## Concrete instances used to evaluate the embedding

Small closed environments, widgets and dialog states at which the
theorems below are instantiated.  `Crs` is `String` where distinct CRS
values matter and `Unit` where they do not; `OsrT` is always `Unit`. -/

/-- An environment whose registry rejects everything; the calcofi
branch never consults it. -/
def exEnvNoRegistry : QgisEnv Unit Unit :=
  { projectCrs := none, crs4326 := (),
    crsOfInt := fun _ => none, crsOfStr := fun _ => none,
    osrOf := fun _ => (),
    transformPoint := fun _ _ _ => .error "na",
    nativeTransform := fun _ _ _ => .error "na",
    pyFormat := fun _ _ => none }

/-- Like `exEnvNoRegistry` but with a registry accepting everything:
used to show the calcofi branch is registry-independent. -/
def exEnvFullRegistry : QgisEnv Unit Unit :=
  { exEnvNoRegistry with
    crsOfInt := fun _ => some (), crsOfStr := fun _ => some (),
    pyFormat := fun _ _ => some "x" }

/-- A stored settings blob missing most keys but overriding one. -/
def exStoredBlob : JVal :=
  JVal.objOf [("last_transform", JVal.str "EPSG:4326")]

/-- A registry knowing only the textual code `"EPSG:9999"`. -/
def exEnv9999 : QgisEnv String Unit :=
  { projectCrs := none, crs4326 := "EPSG:4326",
    crsOfInt := fun _ => none,
    crsOfStr := fun s => if s = "EPSG:9999" then some "crs-9999" else none,
    osrOf := fun _ => (),
    transformPoint := fun _ _ _ => .error "na",
    nativeTransform := fun _ _ _ => .error "na",
    pyFormat := fun _ _ => none }

/-- A widget in its default active configuration. -/
def exWidget9999 : SecondaryCoordinates String Unit :=
  { settings := default_settings, transform := "EPSG:6414",
    crs := .native (some "EPSG:4326") "crs-6414",
    x_format := ",.0f", y_format := ",.0f", scaler := 1,
    labelText := "EPSG:6414", editText := "", xy := none }

/-- An environment whose native engine fails exactly on the point with
`x = 0` and otherwise yields `(1, 2)`, and which formats every number
as `"N"`. -/
def exEnvC5 : QgisEnv Unit Unit :=
  { projectCrs := none, crs4326 := (),
    crsOfInt := fun _ => none, crsOfStr := fun _ => none,
    osrOf := fun _ => (),
    transformPoint := fun _ _ _ => .error "na",
    nativeTransform := fun _ _ p =>
      if p.x = 0 then .error "outside domain" else .ok (1, 2),
    pyFormat := fun _ _ => some "N" }

/-- A widget whose active transform is a native one with an unset
source CRS (matching `exEnvC5.projectCrs = none`) and scaler 2. -/
def exWidgetC5 : SecondaryCoordinates Unit Unit :=
  { settings := default_settings, transform := "EPSG:6414",
    crs := .native none (),
    x_format := ",.0f", y_format := ",.0f", scaler := 2,
    labelText := "EPSG:6414", editText := "old", xy := none }

/-- A registry accepting the code 6414 both as an integer and in its
prefixed string form, resolving both to the same CRS value. -/
def exEnvC6 : QgisEnv String Unit :=
  { projectCrs := some "proj-crs", crs4326 := "EPSG:4326",
    crsOfInt := fun m => if m = 6414 then some "ca-albers" else none,
    crsOfStr := fun s => if s = "EPSG:6414" then some "ca-albers" else none,
    osrOf := fun _ => (),
    transformPoint := fun _ _ _ => .error "na",
    nativeTransform := fun _ _ _ => .error "na",
    pyFormat := fun _ _ => none }

/-- A geodesy engine succeeding exactly on the latitude-first pair
`(37, -122)`: evaluating the adapter at the point `x = -122, y = 37`
exhibits the axis swap. -/
def exEnvC8 : QgisEnv Unit Unit :=
  { projectCrs := none, crs4326 := (),
    crsOfInt := fun _ => none, crsOfStr := fun _ => none,
    osrOf := fun _ => (),
    transformPoint := fun _ la lo =>
      if la = 37 ∧ lo = -122 then .ok (90, 45, 0) else .error "range",
    nativeTransform := fun _ _ _ => .error "na",
    pyFormat := fun _ _ => none }

/-- An environment validating every transform text and format pattern,
so that `ConfigDialog.accept` always succeeds. -/
def exEnvAcceptAll : QgisEnv Unit Unit :=
  { projectCrs := none, crs4326 := (),
    crsOfInt := fun _ => some (), crsOfStr := fun _ => some (),
    osrOf := fun _ => (),
    transformPoint := fun _ _ _ => .error "na",
    nativeTransform := fun _ _ _ => .error "na",
    pyFormat := fun _ _ => some "1.2" }

/-- A dialog whose x-format combo already holds ten distinct items while
the line edit holds an eleventh value. -/
def exDialogTen : ConfigDialog :=
  { settings := default_settings,
    transformItems := ["EPSG:6414", "+proj=calcofi +ellps=clrk66"],
    transformText := "EPSG:6414",
    nameText := "EPSG:6414",
    xItems := [".0f", ".1f", ".2f", ".3f", ".4f",
               ".5f", ".6f", ".7f", ".8f", ".9f"],
    xText := ",.0f",
    yItems := [".1f", ",.0f"], yText := ".1f",
    scalerItems := ["1", "1000", "1852"], scalerText := "5" }

/-- A small dialog state for evaluating the recency-list bound. -/
def exDialogSmall : ConfigDialog :=
  { settings := default_settings,
    transformItems := ["EPSG:6414", "+proj=calcofi +ellps=clrk66"],
    transformText := "EPSG:6414",
    nameText := "EPSG:6414",
    xItems := [".1f", ",.0f"], xText := ",.2f",
    yItems := [".1f", ",.0f"], yText := ".1f",
    scalerItems := ["1", "1000", "1852"], scalerText := "1000" }

/-! ## Helper lemmas: `pyInt` and `startswith` on prefixed strings -/

theorem dropWhile_append_last {p : Char → Bool} {c : Char}
    (h : p c = false) (xs : List Char) :
    List.dropWhile p (xs ++ [c]) = List.dropWhile p xs ++ [c] := by
  induction xs with
  | nil => simp [List.dropWhile, h]
  | cons a l ih =>
    by_cases ha : p a <;> simp [List.dropWhile_cons, ha, ih]

theorem trimChars_cons {c : Char} (cs : List Char)
    (h : isPySpace c = false) :
    trimChars (c :: cs) =
      c :: (cs.reverse.dropWhile isPySpace).reverse := by
  unfold trimChars
  rw [List.dropWhile_cons]
  simp only [h, Bool.false_eq_true, if_false, List.reverse_cons,
    dropWhile_append_last h, List.reverse_append, List.reverse_cons,
    List.reverse_nil, List.nil_append, List.cons_append]

theorem pyInt_eq_none_of_head {s : String} {c : Char} {cs : List Char}
    (hdata : s.data = c :: cs) (hsp : isPySpace c = false)
    (hplus : c ≠ '+') (hminus : c ≠ '-') (hdig : c.isDigit = false) :
    pyInt s = none := by
  unfold pyInt
  rw [hdata, trimChars_cons cs hsp]
  simp [pyIntChars, hplus, hminus, digitsToNat, digitsToNatAux, hdig]

theorem startswith_eq_false_of_head {s pre : String} {c p : Char}
    {cs ps : List Char} (hs : s.data = c :: cs) (hp : pre.data = p :: ps)
    (h : c ≠ p) : startswith s pre = false := by
  unfold startswith
  rw [hs, hp]
  simp [startsWithChars, h]

theorem data_epsg_append (t : String) :
    ("EPSG:" ++ t).data = 'E' :: 'P' :: 'S' :: 'G' :: ':' :: t.data := by
  rw [String.data_append "EPSG:" t]
  rfl

/-- `int("EPSG:...")` always raises `ValueError`. -/
theorem pyInt_epsg (t : String) : pyInt ("EPSG:" ++ t) = none :=
  pyInt_eq_none_of_head (data_epsg_append t) (by decide) (by decide)
    (by decide) (by decide)

/-- `"EPSG:..."` never starts with the calcofi marker. -/
theorem startswith_epsg_calcofi (t : String) :
    startswith ("EPSG:" ++ t) "+proj=calcofi" = false :=
  startswith_eq_false_of_head (data_epsg_append t) rfl (by decide)

/-! ## Helper lemmas: object chains and `recursive_update` -/

theorem JVal.alookup_setKey_self (m : JVal) (k : String) (v : JVal) :
    (m.setKey k v).alookup k = some v := by
  induction m with
  | objCons k0 v0 rest ihv ihr =>
    by_cases h : k0 = k <;> simp [JVal.setKey, JVal.alookup, h, ihr]
  | _ => simp [JVal.setKey, JVal.alookup]

theorem JVal.alookup_setKey_ne (m : JVal) {k k' : String} (v : JVal)
    (h : k' ≠ k) : (m.setKey k v).alookup k' = m.alookup k' := by
  have hkk : ¬ k = k' := fun hh => h hh.symm
  induction m with
  | objCons k0 v0 rest ihv ihr =>
    by_cases h0 : k0 = k
    · subst h0
      simp [JVal.setKey, JVal.alookup, hkk]
    · by_cases h1 : k0 = k' <;> simp [JVal.setKey, JVal.alookup, h0, h1, ihr, h]
  | _ => simp [JVal.setKey, JVal.alookup, hkk]

theorem JVal.alookup_eq_none_of_not_mem {d : JVal} {k : String}
    (h : k ∉ d.keysList) : d.alookup k = none := by
  induction d with
  | objCons k0 v rest ihv ihr =>
    simp only [JVal.keysList, List.mem_cons, not_or] at h
    have h01 : ¬ k0 = k := fun hh => h.1 hh.symm
    simp [JVal.alookup, h01, ihr h.2]
  | _ => simp [JVal.alookup]

theorem JVal.alookup_eq_none_of_not_isObj {d : JVal} (h : d.isObj = false)
    (k : String) : d.alookup k = none := by
  cases d <;> simp_all [JVal.isObj, JVal.alookup]

theorem JVal.objNodup_cons {k : String} {v rest : JVal}
    (h : JVal.objNodup (.objCons k v rest) = true) :
    k ∉ rest.keysList ∧ v.objNodup = true ∧ rest.objNodup = true := by
  have h' := h
  simp only [JVal.objNodup, Bool.and_eq_true, Bool.not_eq_true',
    decide_eq_false_iff_not] at h'
  exact ⟨h'.1.1, h'.1.2, h'.2⟩

theorem JVal.objNodup_alookup {d v : JVal} {k : String}
    (hd : d.objNodup = true) (h : d.alookup k = some v) :
    v.objNodup = true := by
  induction d with
  | objCons k0 v0 rest ihv ihr =>
    obtain ⟨-, hv0, hrest⟩ := JVal.objNodup_cons hd
    by_cases h0 : k0 = k
    · simp only [JVal.alookup, h0, if_true, Option.some.injEq] at h
      exact h ▸ hv0
    · simp only [JVal.alookup, h0, if_false] at h
      exact ihr hrest h
  | _ => simp [JVal.alookup] at h

theorem JVal.compat_alookup {d1 d2 v w : JVal} {k : String}
    (hc : JVal.compat d1 d2 = true) (h2 : d2.alookup k = some v)
    (h1 : d1.alookup k = some w) (hw : w.isObj = true) :
    v.isObj = true ∧ JVal.compat w v = true := by
  induction d2 with
  | objCons k0 v0 rest ihv ihr =>
    rw [JVal.compat, Bool.and_eq_true] at hc
    obtain ⟨hhead, hrest⟩ := hc
    by_cases h0 : k0 = k
    · subst h0
      simp only [JVal.alookup, if_true, Option.some.injEq] at h2
      subst h2
      simp only [h1, hw, if_true, Bool.and_eq_true] at hhead
      exact hhead
    · simp only [JVal.alookup, h0, if_false] at h2
      exact ihr hrest h2
  | _ => simp [JVal.alookup] at h2

/-- Pointwise description of `recursive_update`: under a key bound by
`d2` the result holds `mergedValue`, elsewhere it keeps `d1`'s binding.
Needs the keys of `d2` to be unique (true of every Python dict). -/
theorem JVal.alookup_recursive_update :
    ∀ (d2 d1 : JVal), d2.objNodup = true → ∀ k : String,
      (recursive_update d1 d2).alookup k =
        match d2.alookup k with
        | some v => some (mergedValue (d1.alookup k) v)
        | none => d1.alookup k := by
  intro d2
  induction d2 with
  | objCons k0 v rest ihv ihr =>
    intro d1 h k
    obtain ⟨hk0, hv, hrest⟩ := JVal.objNodup_cons h
    rw [recursive_update]
    rw [ihr _ hrest k]
    by_cases hkk : k0 = k
    · subst hkk
      have hrk : rest.alookup k0 = none := JVal.alookup_eq_none_of_not_mem hk0
      rw [hrk]
      simp only [JVal.alookup, if_true, mergedValue]
      split
      case _ w heq =>
        split
        · rw [JVal.alookup_setKey_self]
        · rw [JVal.alookup_setKey_self]
      case _ heq =>
        rw [JVal.alookup_setKey_self]
    · have hk0k : ¬ k = k0 := fun hh => hkk hh.symm
      have halias :
          (match d1.alookup k0 with
           | some w =>
             if v.isObj && w.isObj then d1.setKey k0 (recursive_update w v)
             else d1.setKey k0 v
           | none => d1.setKey k0 v).alookup k = d1.alookup k := by
        split
        · split
          · rw [JVal.alookup_setKey_ne _ _ hk0k]
          · rw [JVal.alookup_setKey_ne _ _ hk0k]
        · rw [JVal.alookup_setKey_ne _ _ hk0k]
      rw [halias]
      simp [JVal.alookup, hkk]
  | str s =>
    intro d1 h k
    show d1.alookup k = _
    simp [JVal.alookup]
  | arr xs =>
    intro d1 h k
    show d1.alookup k = _
    simp [JVal.alookup]
  | objNil =>
    intro d1 h k
    show d1.alookup k = _
    simp [JVal.alookup]

/-- Merging a well-formed stored blob never loses a defaults key: every
path that reaches a value in `d1` still reaches one in the merge. -/
theorem JVal.lookupPath_recursive_update_isSome :
    ∀ (p : List String) (d1 d2 : JVal), JVal.compat d1 d2 = true →
      d2.objNodup = true → (d1.lookupPath p).isSome = true →
      ((recursive_update d1 d2).lookupPath p).isSome = true := by
  intro p
  induction p with
  | nil => intro d1 d2 _ _ _; simp [JVal.lookupPath]
  | cons k ps ih =>
    intro d1 d2 hc hn hsome
    rw [JVal.lookupPath] at hsome
    simp only [JVal.lookupPath]
    rw [JVal.alookup_recursive_update d2 d1 hn k]
    cases hw : d1.alookup k with
    | none => rw [hw] at hsome; simp at hsome
    | some w =>
      rw [hw] at hsome
      dsimp only at hsome
      cases hv : d2.alookup k with
      | none => simpa using hsome
      | some v =>
        simp only [mergedValue]
        by_cases hwo : w.isObj = true
        · obtain ⟨hvo, hcwv⟩ := JVal.compat_alookup hc hv hw hwo
          have hcond : (v.isObj && w.isObj) = true := by rw [hvo, hwo]; rfl
          rw [if_pos hcond]
          simpa using ih w v hcwv (JVal.objNodup_alookup hn hv) hsome
        · rw [Bool.not_eq_true] at hwo
          have hcond : ¬ (v.isObj && w.isObj) = true := by
            rw [hwo]; simp
          rw [if_neg hcond]
          cases ps with
          | nil => simp [JVal.lookupPath]
          | cons k' ps' =>
            rw [JVal.lookupPath, JVal.alookup_eq_none_of_not_isObj hwo k']
              at hsome
            simp at hsome

/-- A scalar (non-dict) value the stored blob holds at any path wins:
the merge holds exactly that value at that path. -/
theorem JVal.lookupPath_recursive_update_override :
    ∀ (p : List String) (d1 d2 v : JVal), d2.objNodup = true →
      d2.isObj = true → d2.lookupPath p = some v → v.isObj = false →
      (recursive_update d1 d2).lookupPath p = some v := by
  intro p
  induction p with
  | nil =>
    intro d1 d2 v _ hobj hpath hvno
    rw [JVal.lookupPath, Option.some.injEq] at hpath
    rw [hpath] at hobj
    rw [hobj] at hvno
    cases hvno
  | cons k ps ih =>
    intro d1 d2 v hn hobj hpath hvno
    rw [JVal.lookupPath] at hpath
    simp only [JVal.lookupPath]
    rw [JVal.alookup_recursive_update d2 d1 hn k]
    cases hw2 : d2.alookup k with
    | none => rw [hw2] at hpath; simp at hpath
    | some w2 =>
      rw [hw2] at hpath
      dsimp only at hpath
      simp only [mergedValue]
      cases hw1 : d1.alookup k with
      | none => exact hpath
      | some w1 =>
        dsimp only
        by_cases hio : (w2.isObj && w1.isObj) = true
        · rw [if_pos hio]
          rw [Bool.and_eq_true] at hio
          exact ih w1 w2 v (JVal.objNodup_alookup hn hw2) hio.1 hpath hvno
        · rw [if_neg hio]
          exact hpath

/-! ## Claims about the transform resolver and the calcofi adapter -/

/-- Claim C6: resolving the identifier given as the integer 6414 and as
the string `"EPSG:6414"` yields the same canonical identifier (the
prefixed form) and the same transform object; generally, when the
registry accepts a bare numeric code `n` (as an integer and in prefixed
string form, resolving to the same CRS), `get_transform` canonicalizes
both spellings to `"EPSG:" ++ toString n` with identical native
transforms. -/
theorem claim_C6_canonicalization (Crs OsrT : Type) (env : QgisEnv Crs OsrT)
    (n : Int) (c : Crs)
    (hint : env.crsOfInt n = some c)
    (hstr : env.crsOfStr ("EPSG:" ++ toString n) = some c) :
    get_transform env (.int n)
      = some ("EPSG:" ++ toString n,
              .native (some (projectSourceCrs env)) c)
    ∧ get_transform env (.str ("EPSG:" ++ toString n))
      = get_transform env (.int n) := by
  constructor
  · simp [get_transform, hint]
  · simp [get_transform, hint, hstr, startswith_epsg_calcofi, pyInt_epsg]

/-- Witness for C6 at the code 6414 in a registry that accepts it. -/
theorem claim_C6_witness :
    get_transform exEnvC6 (.int 6414)
      = some ("EPSG:" ++ toString (6414 : Int),
              .native (some (projectSourceCrs exEnvC6)) "ca-albers")
    ∧ get_transform exEnvC6 (.str ("EPSG:" ++ toString (6414 : Int)))
      = get_transform exEnvC6 (.int 6414) :=
  claim_C6_canonicalization String Unit exEnvC6 6414 "ca-albers"
    (by decide) (by decide)

/-- Claim C7: resolving the custom-projection marker succeeds in every
environment — in particular whatever the native registry accepts —
returning the canonical marker identifier and a `CalcofiTransformer`;
and `setSourceCrs(c)` followed by `sourceCrs()` on such an adapter
returns exactly `c`. -/
theorem claim_C7_marker_and_roundtrip (Crs OsrT : Type)
    (env : QgisEnv Crs OsrT) (t : CalcofiTransformer Crs OsrT) (c : Crs) :
    get_transform env (.str "+proj=calcofi")
      = some ("+proj=calcofi +ellps=clrk66",
              .calcofi (CalcofiTransformer.construct env))
    ∧ (t.setSourceCrs env (some c)).sourceCrs = c := by
  constructor
  · simp [get_transform,
      show startswith "+proj=calcofi" "+proj=calcofi" = true from rfl]
  · rfl

/-- Claim C8: the calcofi adapter calls the geodesy engine with the
point's components in latitude-first order `(xy.y, xy.x)`, keeps only
the first two output components, and converts an engine failure into
the same exception channel the native transform path uses. -/
theorem claim_C8_lat_first_order (Crs OsrT : Type) (env : QgisEnv Crs OsrT)
    (t : CalcofiTransformer Crs OsrT) (p q : Point)
    (line sta ht : ℚ) (e : String)
    (hok : env.transformPoint t.crs p.y p.x = .ok (line, sta, ht))
    (herr : env.transformPoint t.crs q.y q.x = .error e) :
    t.transform env p = .ok (line, sta) ∧ t.transform env q = .error e := by
  constructor
  · simp [CalcofiTransformer.transform, hok]
  · simp [CalcofiTransformer.transform, herr]

/-- Witness for C8: at the point `x = -122, y = 37` the engine is
called with `(37, -122)` — latitude first — and the height component of
its output is discarded; a point outside the engine's domain surfaces
as the transform exception. -/
theorem claim_C8_witness :
    CalcofiTransformer.transform exEnvC8 ⟨(), ()⟩ ⟨-122, 37⟩ = .ok (90, 45)
    ∧ CalcofiTransformer.transform exEnvC8 ⟨(), ()⟩ ⟨0, 0⟩ = .error "range" :=
  claim_C8_lat_first_order Unit Unit exEnvC8 ⟨(), ()⟩ ⟨-122, 37⟩ ⟨0, 0⟩
    90 45 0 "range" rfl rfl

/-- Claim C10: any string that merely starts with `"+proj=calcofi"` —
whatever follows — makes `get_transform` return the fixed canonical
marker identifier with a `CalcofiTransformer`, and the result is
independent of the registry lookup capabilities (two environments that
agree on project CRS, the EPSG:4326 fallback and the osr builder give
identical results, whatever their registries do). -/
theorem claim_C10_marker_short_circuit (Crs OsrT : Type)
    (env env2 : QgisEnv Crs OsrT) (s : String)
    (hpre : startswith s "+proj=calcofi" = true)
    (hproj : env.projectCrs = env2.projectCrs)
    (h4326 : env.crs4326 = env2.crs4326)
    (hosr : env.osrOf = env2.osrOf) :
    get_transform env (.str s)
      = some ("+proj=calcofi +ellps=clrk66",
              .calcofi (CalcofiTransformer.construct env))
    ∧ get_transform env (.str s) = get_transform env2 (.str s) := by
  have hc : CalcofiTransformer.construct env
      = CalcofiTransformer.construct env2 := by
    unfold CalcofiTransformer.construct CalcofiTransformer.setSourceCrs
    rw [hproj, h4326, hosr]
  constructor
  · simp [get_transform, hpre]
  · simp [get_transform, hpre, hc]

/-- Witness for C10 on a marker string with trailing bogus parameters,
under two environments with opposite registries. -/
theorem claim_C10_witness :
    get_transform exEnvNoRegistry (.str "+proj=calcofi +datum=bogus junk")
      = some ("+proj=calcofi +ellps=clrk66",
              .calcofi (CalcofiTransformer.construct exEnvNoRegistry))
    ∧ get_transform exEnvNoRegistry (.str "+proj=calcofi +datum=bogus junk")
      = get_transform exEnvFullRegistry (.str "+proj=calcofi +datum=bogus junk") :=
  claim_C10_marker_short_circuit Unit Unit exEnvNoRegistry exEnvFullRegistry
    "+proj=calcofi +datum=bogus junk" (by decide) rfl rfl rfl

/-! ## Claims about settings persistence -/

/-- Claim C2 (code bug in the source): `read_settings` only falls back
to the defaults when the stored blob is absent/empty.  A non-empty blob
that does not parse makes the un-guarded `json.loads` raise, and the
parse error propagates out of `read_settings` (and hence out of
`__init__`) instead of falling back to defaults as the specification
requires.  Evaluated here at a parse function failing on the stored
text `"not json"`. -/
theorem claim_C2_malformed_blob_raises :
    read_settings (fun _ => none) "not json" = .error .jsonDecodeError
    ∧ read_settings (fun _ => none) "" = .ok default_settings_json :=
  ⟨rfl, rfl⟩

/-- Claim C3: for a well-formed stored blob (a parsed dict with unique
keys whose nested dicts sit wherever the defaults have nested dicts),
`read_settings` succeeds with the recursive merge onto the defaults;
every path reaching a value in the hard-coded defaults still reaches a
value after the merge (missing stored keys are filled from defaults),
and every scalar the stored blob holds at any path is held verbatim by
the result (stored values override defaults at every depth). -/
theorem claim_C3_merge_preserves_and_overrides
    (parse : String → Option JVal) (stored : String) (j : JVal)
    (hne : stored ≠ "")
    (hparse : parse stored = some j)
    (hobj : j.isObj = true)
    (hnodup : j.objNodup = true)
    (hcompat : JVal.compat default_settings_json j = true) :
    read_settings parse stored
      = .ok (recursive_update default_settings_json j)
    ∧ (∀ p : List String,
        (default_settings_json.lookupPath p).isSome = true →
        ((recursive_update default_settings_json j).lookupPath p).isSome
          = true)
    ∧ (∀ (p : List String) (v : JVal),
        j.lookupPath p = some v → v.isObj = false →
        (recursive_update default_settings_json j).lookupPath p = some v) := by
  refine ⟨?_, ?_, ?_⟩
  · simp [read_settings, hne, hparse, hobj]
  · intro p hp
    exact JVal.lookupPath_recursive_update_isSome p _ j hcompat hnodup hp
  · intro p v hpv hv
    exact JVal.lookupPath_recursive_update_override p _ j v hnodup hobj hpv hv

/-- Witness for C3: a stored blob holding only `last_transform` merges
into settings that still contain the defaults-only key
`transforms → EPSG:6414 → x_format` while the stored value overrides
the default `last_transform`. -/
theorem claim_C3_witness :
    read_settings (fun s => if s = "blob" then some exStoredBlob else none)
        "blob"
      = .ok (recursive_update default_settings_json exStoredBlob)
    ∧ ((recursive_update default_settings_json exStoredBlob).lookupPath
        ["transforms", "EPSG:6414", "x_format"]).isSome = true
    ∧ (recursive_update default_settings_json exStoredBlob).lookupPath
        ["last_transform"] = some (JVal.str "EPSG:4326") := by
  obtain ⟨h1, h2, h3⟩ := claim_C3_merge_preserves_and_overrides
    (fun s => if s = "blob" then some exStoredBlob else none) "blob"
    exStoredBlob (by decide) (by decide) (by decide) (by decide) (by decide)
  exact ⟨h1, h2 _ (by decide), h3 _ _ (by decide) (by decide)⟩

/-! ## Claims about the dialog session and the widget -/

/-- Claim C1 (code bug in the source): a dialog session that ends in
cancel can change the widget's live settings.  `ConfigDialog.__init__`
stores `self.settings = parent.settings` — an alias, although the class
docstring says the dialog works on a copy — so the
`settings["last_transform"]` write in `on_transform_change` hits the
widget's own settings object.  Typing the (always-valid) calcofi marker
into the transform box and cancelling leaves the widget's settings
different from what they were when the dialog opened. -/
theorem claim_C1_cancel_mutates_live_settings :
    settings_after_cancel exEnvNoRegistry default_settings
        [DialogEdit.setTransformText "+proj=calcofi",
         DialogEdit.transformEdited]
      ≠ default_settings
    ∧ (settings_after_cancel exEnvNoRegistry default_settings
        [DialogEdit.setTransformText "+proj=calcofi",
         DialogEdit.transformEdited]).last_transform
      = "+proj=calcofi +ellps=clrk66"
    ∧ default_settings.last_transform = "EPSG:6414" :=
  ⟨by decide, rfl, rfl⟩

/-- Claim C4, counterexample: settings whose `last_transform` is
non-empty, resolves to a valid transform, but is not a key of
`transforms` do not make `update_from_settings` succeed — it raises
`KeyError` at `settings["transforms"][trans]`, with no fallback. -/
theorem claim_C4_counterexample :
    ({ default_settings with last_transform := "EPSG:9999" }
        : Settings).last_transform ≠ ""
    ∧ (get_transform exEnv9999 (.str "EPSG:9999")).isSome = true
    ∧ lookupKey ({ default_settings with last_transform := "EPSG:9999" }
        : Settings).transforms "EPSG:9999" = none
    ∧ SecondaryCoordinates.update_from_settings exEnv9999 exWidget9999
        { default_settings with last_transform := "EPSG:9999" }
      = .error .keyError :=
  ⟨by decide, by decide, by decide, rfl⟩

/-- Claim C4, amended: whenever `last_transform` resolves via
`get_transform` but is missing from the `transforms` mapping,
`update_from_settings` raises `KeyError`; the fall-back to default
label/format/scale for an identifier without an entry lives in the
dialog's `update_gui`, not in `update_from_settings`. -/
theorem claim_C4_missing_key_raises (Crs OsrT : Type)
    (env : QgisEnv Crs OsrT) (w : SecondaryCoordinates Crs OsrT)
    (s : Settings) (r : String × TransformObj Crs OsrT)
    (hres : get_transform env (.str s.last_transform) = some r)
    (hmiss : lookupKey s.transforms s.last_transform = none) :
    SecondaryCoordinates.update_from_settings env w s
      = .error .keyError := by
  obtain ⟨cid, tobj⟩ := r
  unfold SecondaryCoordinates.update_from_settings
  dsimp only
  rw [hres]
  dsimp only
  rw [hmiss]

/-- Witness for the amended C4 at a concrete widget and settings. -/
theorem claim_C4_witness :
    SecondaryCoordinates.update_from_settings exEnv9999 exWidget9999
      { default_settings with last_transform := "EPSG:9999" }
      = .error .keyError :=
  claim_C4_missing_key_raises String Unit exEnv9999 exWidget9999
    { default_settings with last_transform := "EPSG:9999" }
    ("EPSG:9999", .native (some "EPSG:4326") "crs-9999") rfl (by decide)

/-- Claim C5: an event whose point makes the active transform raise
leaves the widget with a cleared display and everything else — the
settings dict, the active transform identifier and object, both format
patterns, the scaler, the label — unchanged (only the cached event
point is updated); and the very next event that transforms successfully
displays the scaled, formatted coordinate pair.  Stated for events
during which the project CRS equals the transform's source CRS (a CRS
change re-syncs the source on any event, failing or not). -/
theorem claim_C5_failure_clears_display_only (Crs OsrT : Type)
    [DecidableEq Crs] (env : QgisEnv Crs OsrT)
    (w : SecondaryCoordinates Crs OsrT) (p q : Point) (err : String)
    (x y : ℚ) (sx sy : String)
    (hsrc : w.crs.sourceCrs = env.projectCrs)
    (hfail : w.crs.transform env p = .error err)
    (hok : w.crs.transform env q = .ok (x, y))
    (hsc : ¬ w.scaler = 0)
    (hfx : env.pyFormat w.x_format (x / (w.scaler : ℚ)) = some sx)
    (hfy : env.pyFormat w.y_format (y / (w.scaler : ℚ)) = some sy) :
    SecondaryCoordinates.read_coords env w p
      = .ok { w with xy := some p, editText := "" }
    ∧ SecondaryCoordinates.read_coords env
        { w with xy := some p, editText := "" } q
      = .ok { w with xy := some q, editText := sx ++ ", " ++ sy } := by
  constructor
  · simp [SecondaryCoordinates.read_coords,
      SecondaryCoordinates.update_src_crs, hsrc, hfail]
  · simp [SecondaryCoordinates.read_coords,
      SecondaryCoordinates.update_src_crs, hsrc, hok, hfx, hfy, hsc]

/-- Witness for C5: the native engine fails on the origin and sends
`(3, 4)` to `(1, 2)`; with scaler 2 and the constant formatter the
failing event only clears the display and the next event shows
`"N, N"`. -/
theorem claim_C5_witness :
    SecondaryCoordinates.read_coords exEnvC5 exWidgetC5 ⟨0, 0⟩
      = .ok { exWidgetC5 with xy := some ⟨0, 0⟩, editText := "" }
    ∧ SecondaryCoordinates.read_coords exEnvC5
        { exWidgetC5 with xy := some ⟨0, 0⟩, editText := "" } ⟨3, 4⟩
      = .ok { exWidgetC5 with xy := some ⟨3, 4⟩, editText := "N, N" } :=
  claim_C5_failure_clears_display_only Unit Unit exEnvC5 exWidgetC5
    ⟨0, 0⟩ ⟨3, 4⟩ "outside domain" 1 2 "N" "N"
    rfl rfl rfl (by decide) rfl rfl

/-- The recency lists produced by `get_combo_items`: duplicate-free, at
most one longer than the item list, and containing the current text and
every item. -/
theorem get_combo_items_spec (current : String) (items : List String)
    (h : items.length ≤ 10) :
    (ConfigDialog.get_combo_items current items).Nodup
    ∧ (ConfigDialog.get_combo_items current items).length ≤ 11
    ∧ current ∈ ConfigDialog.get_combo_items current items
    ∧ ∀ a ∈ items, a ∈ ConfigDialog.get_combo_items current items := by
  unfold ConfigDialog.get_combo_items
  refine ⟨List.nodup_dedup _, ?_, ?_, ?_⟩
  · have h1 : (current :: items).dedup.length ≤ (current :: items).length :=
      (List.dedup_sublist _).length_le
    have h2 : (current :: items).length = items.length + 1 := by simp
    omega
  · exact List.mem_dedup.mpr (List.mem_cons_self _ _)
  · intro a ha
    exact List.mem_dedup.mpr (List.mem_cons_of_mem _ ha)

/-- Claim C9, counterexample: an accepted dialog session can leave a
recency list with 11 entries.  With the x-format combo holding ten
distinct items (its `setMaxCount(10)` bound) and an eleventh distinct
value in its line edit, acceptance stores the union — 11 entries, more
than the claimed cap of 10. -/
theorem claim_C9_counterexample :
    (ConfigDialog.accept exEnvAcceptAll exDialogTen).map
        (fun d => d.settings.x_formats.length) = some 11
    ∧ ¬ (11 ≤ 10) :=
  ⟨rfl, by decide⟩

/-- Claim C9, amended: after every accepted dialog session each recency
list in the resulting settings is duplicate-free and holds at most 11
entries (the at-most-10 combo items plus the current field text), and
it contains the current field text and every prior item. -/
theorem claim_C9_lists_unique_bounded (Crs OsrT : Type)
    (env : QgisEnv Crs OsrT) (d d' : ConfigDialog)
    (hx : d.xItems.length ≤ 10) (hy : d.yItems.length ≤ 10)
    (hs : d.scalerItems.length ≤ 10)
    (hacc : ConfigDialog.accept env d = some d') :
    (d'.settings.x_formats.Nodup ∧ d'.settings.x_formats.length ≤ 11
      ∧ d.xText ∈ d'.settings.x_formats
      ∧ ∀ a ∈ d.xItems, a ∈ d'.settings.x_formats)
    ∧ (d'.settings.y_formats.Nodup ∧ d'.settings.y_formats.length ≤ 11
      ∧ d.yText ∈ d'.settings.y_formats
      ∧ ∀ a ∈ d.yItems, a ∈ d'.settings.y_formats)
    ∧ (d'.settings.scalers.Nodup ∧ d'.settings.scalers.length ≤ 11
      ∧ d.scalerText ∈ d'.settings.scalers
      ∧ ∀ a ∈ d.scalerItems, a ∈ d'.settings.scalers) := by
  have hd' : d' = ConfigDialog.update_settings d := by
    unfold ConfigDialog.accept at hacc
    split at hacc
    · cases hacc
    · split at hacc
      · cases hacc
      · split at hacc
        · cases hacc
        · split at hacc
          · cases hacc
          · injection hacc with h
            exact h.symm
  subst hd'
  refine ⟨?_, ?_, ?_⟩
  · exact get_combo_items_spec d.xText d.xItems hx
  · exact get_combo_items_spec d.yText d.yItems hy
  · exact get_combo_items_spec d.scalerText d.scalerItems hs

/-- Witness for the amended C9 on a small accepted session. -/
theorem claim_C9_witness :
    (ConfigDialog.update_settings exDialogSmall).settings.x_formats.Nodup
    ∧ (ConfigDialog.update_settings
        exDialogSmall).settings.x_formats.length ≤ 11
    ∧ exDialogSmall.scalerText
        ∈ (ConfigDialog.update_settings exDialogSmall).settings.scalers :=
  ⟨(claim_C9_lists_unique_bounded Unit Unit exEnvAcceptAll exDialogSmall
      (ConfigDialog.update_settings exDialogSmall)
      (by decide) (by decide) (by decide) rfl).1.1,
   (claim_C9_lists_unique_bounded Unit Unit exEnvAcceptAll exDialogSmall
      (ConfigDialog.update_settings exDialogSmall)
      (by decide) (by decide) (by decide) rfl).1.2.1,
   (claim_C9_lists_unique_bounded Unit Unit exEnvAcceptAll exDialogSmall
      (ConfigDialog.update_settings exDialogSmall)
      (by decide) (by decide) (by decide) rfl).2.2.2.2.1⟩

/-- Concrete instance of C7: the marker resolves even under an
all-rejecting registry, and the adapter's source-CRS round-trip holds. -/
theorem claim_C7_witness :
    get_transform exEnv9999 (.str "+proj=calcofi")
      = some ("+proj=calcofi +ellps=clrk66",
              .calcofi (CalcofiTransformer.construct exEnv9999))
    ∧ ((⟨"EPSG:4326", ()⟩ : CalcofiTransformer String Unit).setSourceCrs
        exEnv9999 (some "crs-9999")).sourceCrs = "crs-9999" :=
  claim_C7_marker_and_roundtrip String Unit exEnv9999
    ⟨"EPSG:4326", ()⟩ "crs-9999"
